import Mathlib

/-!
Verification of the `andex` crate (strongly-typed bounded array index).

Shallow embedding of `src/lib.rs` and `src/andex.rs`.  Both files define
`Andex<M, const SIZE: usize>(PhantomData<M>, usize)`; the marker type `M`
is phantom (type-level only, zero runtime content), so the embedding keeps
only the two runtime-relevant pieces: the `PhantomData` field (modelled as
`Unit`, since `PhantomData<M>` is a zero-sized type with a single value)
and the stored `usize` value (modelled as `Nat`; a `usize` is 64 bits wide
here, which only matters for string parsing, where the bound is explicit).

Rust's debug-build arithmetic panics on underflow; panics and undefined
behaviour are modelled with `Option` (`none` = panic / UB), via `checkedSub`.
-/

/-- Value of `usize::MAX` on a 64-bit platform: `2 ^ 64 - 1`. -/
def USIZE_MAX : Nat := 2 ^ 64 - 1

/-- Rust subtraction `a - b` on `usize` in a debug build: panics
(here `none`) on underflow, otherwise the exact difference. -/
def checkedSub (a b : Nat) : Option Nat :=
  if b ≤ a then some (a - b) else none

/-- Source: `pub struct Andex<M, const SIZE: usize>(PhantomData<M>, usize);`
(identical in `lib.rs` line 276 and `andex.rs` line 44).
Field `phantom` is the `PhantomData<M>` component (`self.0`), field `val`
is the `usize` component (`self.1`).  As in the source, the type itself
does not constrain `val`: the range invariant is a separate predicate. -/
structure Andex (SIZE : Nat) where
  phantom : Unit
  val : Nat
deriving DecidableEq, Repr

namespace Andex

/-- The range invariant the crate documentation promises for every live
instance: `0 <= v < SIZE` (the `0 ≤` part is implicit in `Nat`). -/
def inv {SIZE : Nat} (a : Andex SIZE) : Prop := a.val < SIZE

instance {SIZE : Nat} (a : Andex SIZE) : Decidable a.inv := by
  unfold inv; infer_instance

/-- Source: `impl From<Andex<M, SIZE>> for usize { fn from(andex) -> Self { andex.1 } }`
(`lib.rs` 416-420, `andex.rs` 196-200). -/
def usizeFrom {SIZE : Nat} (a : Andex SIZE) : Nat := a.val

/-- Source: `const FIRST: Andex<M, SIZE> = Andex(PhantomData, 0);`
(`lib.rs` 288, `andex.rs` 56). -/
def FIRST (SIZE : Nat) : Andex SIZE := ⟨(), 0⟩

/-- Source: `const LAST: Andex<M, SIZE> = Andex(PhantomData, SIZE - 1);`
(`lib.rs` 291, `andex.rs` 59).  The constant is only usable when its
const-evaluation does not underflow, hence the `checkedSub`: for
`SIZE == 0` the constant cannot be evaluated (`none`). -/
def LAST (SIZE : Nat) : Option (Andex SIZE) :=
  (checkedSub SIZE 1).map (fun r => (⟨(), r⟩ : Andex SIZE))

/-- Source: `impl Default for Andex { fn default() -> Self { Andex(PhantomData, 0) } }`
(`lib.rs` 390-394, `andex.rs` 170-174).  Note: unconditional in `SIZE`. -/
def default (SIZE : Nat) : Andex SIZE := ⟨(), 0⟩

/-- Source: `pub const fn new<const N: usize>() -> Self` (`lib.rs` 319-325,
`andex.rs` 87-94): `ASSERT[(N >= SIZE) as usize]` fails (out-of-bounds
index on a 1-element array, a build failure in const contexts) exactly
when `N >= SIZE`; modelled as `none`.  Otherwise `Andex(PhantomData, N)`. -/
def new (SIZE N : Nat) : Option (Andex SIZE) :=
  if N ≥ SIZE then none else some ⟨(), N⟩

/-- Source: `pub const fn pair(self) -> Self { Andex(PhantomData, SIZE - self.1 - 1) }`
(`lib.rs` 332-335, `andex.rs` 101-104).  The two `usize` subtractions are
modelled step by step with `checkedSub` (`none` = underflow panic). -/
def pair {SIZE : Nat} (a : Andex SIZE) : Option (Andex SIZE) :=
  (checkedSub SIZE a.val).bind fun t =>
    (checkedSub t 1).map fun r => (⟨(), r⟩ : Andex SIZE)

/-- Source: `pub fn next(self) -> Option<Self>` (`andex.rs` 107-115):
`let i = usize::from(self); if i < SIZE - 1 { Some(Andex(PhantomData, i + 1)) } else { None }`.
The outer `Option` models the possible underflow panic of `SIZE - 1`;
the inner `Option` is the source's `Option<Self>`. -/
def next {SIZE : Nat} (a : Andex SIZE) : Option (Option (Andex SIZE)) :=
  (checkedSub SIZE 1).map fun m =>
    if a.val < m then some (⟨(), a.val + 1⟩ : Andex SIZE) else none

/-- Source: `impl PartialEq for Andex` in `lib.rs` 396-400:
`fn eq(&self, other: &Self) -> bool { self.0 == other.0 }` — it compares
the `PhantomData` fields (`PartialEq` on `PhantomData` always holds). -/
def eqLibRs {SIZE : Nat} (a b : Andex SIZE) : Bool :=
  decide (a.phantom = b.phantom)

/-- Source: `impl PartialEq for Andex` in `andex.rs` 176-180:
`fn eq(&self, other: &Self) -> bool { self.1 == other.1 }`. -/
def eqAndexRs {SIZE : Nat} (a b : Andex SIZE) : Bool :=
  decide (a.val = b.val)

/-- Source: `impl Ord for Andex { fn cmp(&self, other) { self.1.cmp(&other.1) } }`
(`lib.rs` 410-414, `andex.rs` 190-194). -/
def cmp {SIZE : Nat} (a b : Andex SIZE) : Ordering :=
  compare a.val b.val

end Andex

/-- The error enum of the crate (`lib.rs` 709-723, `andex.rs` 524-538);
`ParseIntError` wraps the kind of the standard-library integer-parse
error. -/
inductive ParseIntErrorKind where
  | empty
  | invalidDigit
  | posOverflow
deriving DecidableEq, Repr

/-- Source: `pub enum Error { OutOfBounds { value, size }, ParseIntError(..) }`. -/
inductive AndexError where
  | outOfBounds (value size : Nat)
  | parseIntError (kind : ParseIntErrorKind)
deriving DecidableEq, Repr

namespace Andex

/-- Source: `impl TryFrom<usize> for Andex` (`lib.rs` 428-437, `andex.rs` 208-217):
`if value < SIZE { Ok(Andex(PhantomData, value)) } else { Err(Error::OutOfBounds { value, size: SIZE }) }`. -/
def tryFrom (SIZE : Nat) (value : Nat) : Except AndexError (Andex SIZE) :=
  if value < SIZE then .ok ⟨(), value⟩
  else .error (.outOfBounds value SIZE)

end Andex

/-! Modelling `usize::from_str` (the standard library's unsigned decimal parse).

`impl FromStr for Andex` delegates to `usize::from_str` (`lib.rs` 451-457,
`andex.rs` 231-237).  The standard library's `from_str_radix` for an
unsigned type at radix 10:
  * an empty string is `Err(Empty)`;
  * a string that is exactly a single sign character (`"+"` or `"-"`)
    is `Err(InvalidDigit)`;
  * a leading `'+'` is stripped; a leading `'-'` is NOT stripped for
    unsigned types (so it is hit as a non-digit below);
  * the remaining characters are folded left: a character outside
    `'0'..='9'` is `Err(InvalidDigit)`; `checked_mul`/`checked_add`
    against `usize::MAX` give `Err(PosOverflow)`. -/

/-- Model of `char::to_digit(10)`: the value of a decimal digit, `none` otherwise. -/
def digitVal (c : Char) : Option Nat :=
  if '0' ≤ c ∧ c ≤ '9' then some (c.toNat - '0'.toNat) else none

/-- The digit fold of `from_str_radix` (unsigned, radix 10, 64-bit):
`result = result.checked_mul(10)?.checked_add(d)?`. -/
def parseDigits (acc : Nat) : List Char → Except ParseIntErrorKind Nat
  | [] => .ok acc
  | c :: rest =>
    match digitVal c with
    | none => .error .invalidDigit
    | some d =>
      if acc * 10 > USIZE_MAX then .error .posOverflow
      else if acc * 10 + d > USIZE_MAX then .error .posOverflow
      else parseDigits (acc * 10 + d) rest

/-- Model of `usize::from_str` on a 64-bit platform, as described above. -/
def usizeFromStr (s : String) : Except ParseIntErrorKind Nat :=
  match s.data with
  | [] => .error .empty
  | ['+'] => .error .invalidDigit
  | ['-'] => .error .invalidDigit
  | '+' :: rest => parseDigits 0 rest
  | l => parseDigits 0 l

namespace Andex

/-- Source: `impl FromStr for Andex` (`lib.rs` 451-457, `andex.rs` 231-237):
`Self::try_from(usize::from_str(s)?)` — the `?` converts the
`ParseIntError` into `Error::ParseIntError`. -/
def fromStr (SIZE : Nat) (s : String) : Except AndexError (Andex SIZE) :=
  match usizeFromStr s with
  | .ok v => tryFrom SIZE v
  | .error e => .error (.parseIntError e)

/-! Unchecked array indexing.

`fn index_arr<'a, T>(&self, arr: &'a [T]) -> &'a T { unsafe { arr.get_unchecked(usize::from(self)) } }`
(`lib.rs` 341-343, `andex.rs` 121-123) and its `_mut` twin
(`lib.rs` 349-351, `andex.rs` 129-131).  The array is modelled as a
`List`, and `get_unchecked` as `List.get?`: `none` is the out-of-bounds
case, which in the source is undefined behaviour. -/

/-- Model of `Andex::index_arr`: the element `get_unchecked` reads, `none` = UB. -/
def index_arr {SIZE : Nat} {T : Type} (a : Andex SIZE) (arr : List T) : Option T :=
  arr.get? a.val

/-- Model of `Andex::index_arr_mut`: the slot `get_unchecked_mut` addresses
(same position as `index_arr`), `none` = UB. -/
def index_arr_mut {SIZE : Nat} {T : Type} (a : Andex SIZE) (arr : List T) : Option T :=
  arr.get? a.val

end Andex

/-! The two iterator implementations.

`lib.rs` 478-511: `struct AndexIterator<A> { next: Option<usize>, .. }`,
`default` = `{ next: Some(0) }`; `Iterator::next` takes the stored
counter, turns it into an index with `A::try_from(i).ok()`, stores
`Some(i + 1)` on success and `None` on failure, and returns the result.

`andex.rs` 258-282: `struct AndexIterator<M, SIZE>(Option<Andex<M, SIZE>>)`,
`default` = `Some(Andex::default())`; `Iterator::next` takes the stored
index, stores `i.next()` (which computes `SIZE - 1`!) and returns `Some(i)`. -/

/-- One call of `<AndexIterator<A> as Iterator>::next` (`lib.rs` 498-510):
input state ↦ (new state, yielded item). -/
def libIterStep (SIZE : Nat) : Option Nat → Option Nat × Option (Andex SIZE)
  | some i =>
    match (Andex.tryFrom SIZE i).toOption with
    | some a => (some (i + 1), some a)
    | none => (none, none)
  | none => (none, none)

/-- The `lib.rs` iterator state after `n` calls to `next`, starting from
the `Default` state `Some(0)`. -/
def libIterState (SIZE : Nat) : Nat → Option Nat
  | 0 => some 0
  | n + 1 => (libIterStep SIZE (libIterState SIZE n)).1

/-- The item yielded by the `(n+1)`-th call of `next` on the `lib.rs`
iterator (`none` = the source's `None`, i.e. "no more items"). -/
def libIterOut (SIZE n : Nat) : Option (Andex SIZE) :=
  (libIterStep SIZE (libIterState SIZE n)).2

/-- One call of `<AndexIterator<M, SIZE> as Iterator>::next`
(`andex.rs` 274-281).  The outer `Option` models a panic inside
`Andex::next` (the `SIZE - 1` underflow): `none` = the call panics,
`some (s, out)` = the call returns `out` leaving state `s`. -/
def andexIterStep (SIZE : Nat) :
    Option (Andex SIZE) → Option (Option (Andex SIZE) × Option (Andex SIZE))
  | some i => (Andex.next i).map fun nx => (nx, some i)
  | none => some (none, none)

/-- The `andex.rs` iterator state after `n` calls to `next`, starting
from the `Default` state `Some(Andex::default())`; `none` = some call
up to that point panicked. -/
def andexIterState (SIZE : Nat) : Nat → Option (Option (Andex SIZE))
  | 0 => some (some (Andex.default SIZE))
  | n + 1 =>
    (andexIterState SIZE n).bind fun s => (andexIterStep SIZE s).map Prod.fst

/-- The outcome of the `(n+1)`-th call of `next` on the `andex.rs`
iterator: `none` = the call (or an earlier one) panics, `some out` =
it returns `out`. -/
def andexIterOut (SIZE n : Nat) : Option (Option (Andex SIZE)) :=
  (andexIterState SIZE n).bind fun s => (andexIterStep SIZE s).map Prod.snd

/-! Modelling `FromIterator` for `AndexableArray`.

`lib.rs` 640-662 (`andex.rs` 463-482 is the same algorithm through
`MaybeUninit`): loop over the `SIZE` slots of the array, filling each
from the source iterator and panicking (`"iterator too short"`) when it
runs dry; after the loop, one extra `iter.next()` must yield nothing,
else panic (`"iterator too long"`).  The source iterator is modelled as
the list of items it yields, the array as the list of filled slots, and
a panic as `none`. -/

/-- The slot-filling loop: `slots` slots remain, `iter` is what the
source iterator still holds, `acc` the slots filled so far (reversed). -/
def fromIterGo {Item : Type} : Nat → List Item → List Item → Option (List Item)
  | 0, iter, acc => if iter.isEmpty then some acc.reverse else none
  | _ + 1, [], _ => none
  | n + 1, x :: rest, acc => fromIterGo n rest (x :: acc)

/-- Model of `<AndexableArray as FromIterator<Item>>::from_iter`: the resulting
array contents, `none` = panic. -/
def fromIter {Item : Type} (SIZE : Nat) (l : List Item) : Option (List Item) :=
  fromIterGo SIZE l []

/-- Source: `pub struct AndexableArray<A, Item, const SIZE: usize>([Item; SIZE], PhantomData<A>);`
(`lib.rs` 546; `andex.rs` 315 orders the fields the other way).  The
fixed-size array `[Item; SIZE]` is modelled as a list whose length is
`SIZE` by construction, which is exactly what the Rust array type
guarantees. -/
structure AndexableArray (Item : Type) (SIZE : Nat) where
  data : List Item
  hlen : data.length = SIZE

/-- Source: `impl ops::Index<Andex<A, SIZE>> for AndexableArray<Andex<A, SIZE>, Item, SIZE>`
(`lib.rs` 554-561, `andex.rs` 360-367): `index.index_arr(&self.0)`. -/
def AndexableArray.index {Item : Type} {SIZE : Nat}
    (arr : AndexableArray Item SIZE) (i : Andex SIZE) : Option Item :=
  Andex.index_arr i arr.data

/-- Source: `impl ops::IndexMut<Andex<A, SIZE>> for AndexableArray<Andex<A, SIZE>, Item, SIZE>`
(`lib.rs` 563-569, `andex.rs` 369-375): `index.index_arr_mut(&mut self.0)`;
the slot the returned `&mut Item` points at. -/
def AndexableArray.indexMut {Item : Type} {SIZE : Nat}
    (arr : AndexableArray Item SIZE) (i : Andex SIZE) : Option Item :=
  Andex.index_arr_mut i arr.data

/-! Helper lemmas (shared by several claim theorems). -/

/-- Closed form of the `lib.rs` iterator state: after `n` calls it is
`Some n` while `n ≤ SIZE` and `None` afterwards. -/
theorem libIterState_eq (SIZE n : Nat) :
    libIterState SIZE n = if n ≤ SIZE then some n else none := by
  induction n with
  | zero => simp [libIterState]
  | succ n ih =>
    rw [libIterState, ih]
    by_cases h : n ≤ SIZE
    · rw [if_pos h]
      by_cases h2 : n < SIZE
      · rw [if_pos (show n + 1 ≤ SIZE by omega)]
        simp [libIterStep, Andex.tryFrom, h2, Except.toOption]
      · rw [if_neg (show ¬ n + 1 ≤ SIZE by omega)]
        simp [libIterStep, Andex.tryFrom, h2, Except.toOption]
    · rw [if_neg h, if_neg (show ¬ n + 1 ≤ SIZE by omega)]
      simp [libIterStep]

/-- Closed form of the `lib.rs` iterator output: the `(n+1)`-th call to
`next` yields the index with value `n` when `n < SIZE` and `None`
otherwise (for every `SIZE`, including `SIZE = 0`). -/
theorem libIterOut_eq (SIZE n : Nat) :
    libIterOut SIZE n = if n < SIZE then some ⟨(), n⟩ else none := by
  rw [libIterOut, libIterState_eq]
  by_cases h : n < SIZE
  · rw [if_pos (by omega : n ≤ SIZE)]
    simp [libIterStep, Andex.tryFrom, h, Except.toOption]
  · by_cases h1 : n ≤ SIZE
    · rw [if_pos h1]
      simp [libIterStep, Andex.tryFrom, h, Except.toOption]
    · rw [if_neg h1]
      simp [libIterStep, h]

/-- Closed form of the `andex.rs` iterator state for `SIZE ≥ 1`: no call
panics, and after `n` calls the state is `Some (index n)` while
`n < SIZE`, then `None`. -/
theorem andexIterState_eq (SIZE : Nat) (hS : 1 ≤ SIZE) (n : Nat) :
    andexIterState SIZE n = some (if n < SIZE then some ⟨(), n⟩ else none) := by
  induction n with
  | zero =>
    simp [andexIterState, Andex.default]
    omega
  | succ n ih =>
    rw [andexIterState, ih]
    by_cases h : n < SIZE
    · rw [if_pos h]
      by_cases h2 : n + 1 < SIZE
      · rw [if_pos h2]
        simp [andexIterStep, Andex.next, checkedSub, hS]
        omega
      · rw [if_neg h2]
        simp [andexIterStep, Andex.next, checkedSub, hS]
        omega
    · rw [if_neg h, if_neg (show ¬ n + 1 < SIZE by omega)]
      simp [andexIterStep]

/-- Closed form of the `andex.rs` iterator output for `SIZE ≥ 1`: the
`(n+1)`-th call returns (without panicking) the index with value `n`
when `n < SIZE` and `None` otherwise. -/
theorem andexIterOut_eq (SIZE : Nat) (hS : 1 ≤ SIZE) (n : Nat) :
    andexIterOut SIZE n = some (if n < SIZE then some ⟨(), n⟩ else none) := by
  rw [andexIterOut, andexIterState_eq SIZE hS]
  by_cases h : n < SIZE
  · rw [if_pos h]
    simp [andexIterStep, Andex.next, checkedSub, hS]
  · rw [if_neg h]
    simp [andexIterStep]

/-- Closed form of the `FromIterator` filling loop. -/
theorem fromIterGo_eq {Item : Type} (n : Nat) :
    ∀ (iter acc : List Item),
      fromIterGo n iter acc =
        if iter.length = n then some (acc.reverse ++ iter) else none := by
  induction n with
  | zero =>
    intro iter acc
    cases iter with
    | nil => simp [fromIterGo]
    | cons x rest => simp [fromIterGo, List.isEmpty]
  | succ n ih =>
    intro iter acc
    cases iter with
    | nil => simp [fromIterGo]
    | cons x rest =>
      rw [fromIterGo, ih]
      by_cases h : rest.length = n
      · rw [if_pos h, if_pos (by simp [h])]
        simp
      · rw [if_neg h, if_neg (by simp [h])]

/-- Collecting succeeds exactly on sequences of length `SIZE`, and then
returns the items unchanged. -/
theorem fromIter_eq {Item : Type} (SIZE : Nat) (l : List Item) :
    fromIter SIZE l = if l.length = SIZE then some l else none := by
  rw [fromIter, fromIterGo_eq]
  simp

/-- Closed form of `Andex::pair` on an in-range index: no subtraction
underflows and the result carries the mirrored value `SIZE - v - 1`. -/
theorem pair_eq {SIZE : Nat} (a : Andex SIZE) (h : a.val < SIZE) :
    a.pair = some ⟨(), SIZE - a.val - 1⟩ := by
  simp only [Andex.pair, checkedSub]
  rw [if_pos (show a.val ≤ SIZE by omega)]
  simp only [Option.some_bind]
  rw [if_pos (show 1 ≤ SIZE - a.val by omega)]
  simp

/-- Consistency of the `andex.rs` equality with the stored values and
with `Ord::cmp` — the behaviour the spec describes (contrast with the
`lib.rs` equality, see the C5 theorem). -/
theorem eqAndexRs_spec {SIZE : Nat} (a b : Andex SIZE) :
    (Andex.eqAndexRs a b = true ↔ Andex.usizeFrom a = Andex.usizeFrom b)
    ∧ (Andex.eqAndexRs a b = true ↔ Andex.cmp a b = Ordering.eq) := by
  constructor
  · simp [Andex.eqAndexRs, Andex.usizeFrom]
  · simp [Andex.eqAndexRs, Andex.cmp, Nat.compare_eq_eq]

/-- Every constructor except `Default` (and the `andex.rs` iterator,
which starts from `Default`) establishes the range invariant for every
`SIZE`; `Default` establishes it only for `SIZE ≥ 1`. -/
theorem inv_established (SIZE : Nat) :
    (∀ N a, Andex.new SIZE N = some a → a.inv)
    ∧ (∀ v a, Andex.tryFrom SIZE v = .ok a → a.inv)
    ∧ (1 ≤ SIZE → (Andex.default SIZE).inv)
    ∧ (∀ a : Andex SIZE, ∀ b, Andex.next a = some (some b) → b.inv)
    ∧ (∀ a : Andex SIZE, a.val < SIZE → ∀ b, a.pair = some b → b.inv) := by
  refine ⟨fun N a ha => ?_, fun v a ha => ?_, fun h => h, fun a b hb => ?_, fun a ha b hb => ?_⟩
  · rw [Andex.new] at ha
    split at ha
    · exact absurd ha (by simp)
    · simp only [Option.some.injEq] at ha
      subst ha
      simpa [Andex.inv] using by omega
  · rw [Andex.tryFrom] at ha
    split at ha
    · simp only [Except.ok.injEq] at ha
      subst ha
      simpa [Andex.inv] using by assumption
    · exact absurd ha (by simp)
  · rw [Andex.next, checkedSub] at hb
    split at hb
    · simp only [Option.map_some', Option.some.injEq] at hb
      split at hb
      · simp only [Option.some.injEq] at hb
        subst hb
        simp only [Andex.inv]
        omega
      · exact absurd hb (by simp)
    · exact absurd hb (by simp)
  · rw [pair_eq a ha] at hb
    simp only [Option.some.injEq] at hb
    subst hb
    simp only [Andex.inv]
    omega

/-! Claim theorems. -/

/-- C1 (code bug at `SIZE = 0`): the claim says every instance reachable
through the public interface satisfies `0 ≤ v < SIZE`, for every `SIZE`
including `0`.  But `Default` is implemented unconditionally as
`Andex(PhantomData, 0)`, so `Andex::<M, 0>::default()` is a usable
instance whose value `0` is out of range (no value satisfies `v < 0`).
This theorem evaluates the code at the failing input. -/
theorem c1_default_breaks_invariant_at_size0 :
    Andex.usizeFrom (Andex.default 0) = 0 ∧ ¬ (Andex.default 0).inv := by
  decide

/-- C2: under the range invariant, the unchecked accesses of
`Index`/`IndexMut` on an `AndexableArray` of the same `SIZE` are in
bounds (the `none`/undefined-behaviour branch is not taken) and return
the element at position `value(i)`. -/
theorem c2_unchecked_index_in_bounds (Item : Type) (SIZE : Nat)
    (arr : AndexableArray Item SIZE) (i : Andex SIZE) (hinv : i.inv) :
    arr.index i = some (arr.data.get ⟨i.val, by rw [arr.hlen]; exact hinv⟩)
    ∧ arr.indexMut i = some (arr.data.get ⟨i.val, by rw [arr.hlen]; exact hinv⟩) := by
  constructor <;>
    exact List.get?_eq_get (by rw [arr.hlen]; exact hinv)

/-- C2 witness: a concrete in-range access on a 3-element array. -/
theorem c2_witness :
    (AndexableArray.mk [10, 20, 30] rfl : AndexableArray Nat 3).index ⟨(), 1⟩ = some 20
    ∧ (AndexableArray.mk [10, 20, 30] rfl : AndexableArray Nat 3).indexMut ⟨(), 1⟩ = some 20 := by
  have h := c2_unchecked_index_in_bounds Nat 3 (AndexableArray.mk [10, 20, 30] rfl) ⟨(), 1⟩ (by decide)
  simpa using h

/-- C3: `try_from(v)` succeeds exactly when `v < SIZE`, in which case
`usize::from` round-trips to `v`; otherwise it fails with
`OutOfBounds { value: v, size: SIZE }`.  It is total (the model is a
total function), so it never panics. -/
theorem c3_tryFrom_range (SIZE value : Nat) :
    (value < SIZE →
      Andex.tryFrom SIZE value = .ok ⟨(), value⟩
      ∧ Andex.usizeFrom (⟨(), value⟩ : Andex SIZE) = value)
    ∧ (SIZE ≤ value →
      Andex.tryFrom SIZE value = .error (.outOfBounds value SIZE))
    ∧ (∀ a : Andex SIZE, Andex.tryFrom SIZE value = .ok a →
      value < SIZE ∧ Andex.usizeFrom a = value) := by
  refine ⟨fun h => ⟨?_, rfl⟩, fun h => ?_, fun a ha => ?_⟩
  · simp [Andex.tryFrom, h]
  · simp [Andex.tryFrom, Nat.not_lt.mpr h]
  · by_cases h : value < SIZE
    · simp [Andex.tryFrom, h] at ha
      exact ⟨h, by simp [Andex.usizeFrom, ← ha]⟩
    · simp [Andex.tryFrom, h] at ha

/-- C3 witness: the spec's concrete scenario at `SIZE = 3`. -/
theorem c3_witness :
    Andex.tryFrom 3 2 = .ok ⟨(), 2⟩
    ∧ Andex.tryFrom 3 3 = .error (.outOfBounds 3 3) :=
  ⟨((c3_tryFrom_range 3 2).1 (by decide)).1, (c3_tryFrom_range 3 3).2.1 (by decide)⟩

/-- C4 (code bug at `SIZE = 0`): the claim says `Andex::iter()` yields
exactly the values `0, 1, …, SIZE-1` and then keeps returning `None`,
for every `SIZE` including `0`, and never errors.  The `lib.rs` iterator
does exactly that (first conjunct: the `(n+1)`-th call yields value `n`
when `n < SIZE` and `None` from then on, for every `SIZE`).  The
`andex.rs` iterator, however, panics on the very first `next()` call
when `SIZE = 0` (second conjunct, `none` = panic): it computes
`SIZE - 1`, which underflows.  (For `SIZE ≥ 1` it behaves correctly —
see `andexIterOut_eq`.) -/
theorem c4_iteration_sequence (SIZE n : Nat) :
    libIterOut SIZE n = (if n < SIZE then some ⟨(), n⟩ else none)
    ∧ andexIterOut 0 0 = none :=
  ⟨libIterOut_eq SIZE n, by decide⟩

/-- C5 (code bug in `lib.rs`): the claim says `a == b` iff the stored
values are equal and that equality agrees with `cmp`.  `lib.rs`
implements `PartialEq` as `self.0 == other.0`, comparing the
`PhantomData` fields — which are always equal — instead of the values:
two indices with values 0 and 1 compare equal although their values
differ and `cmp` orders them strictly.  (`andex.rs` compares `self.1`,
satisfying the claim — see `eqAndexRs_spec`.) -/
theorem c5_librs_eq_ignores_value :
    Andex.eqLibRs (⟨(), 0⟩ : Andex 2) ⟨(), 1⟩ = true
    ∧ Andex.usizeFrom (⟨(), 0⟩ : Andex 2) ≠ Andex.usizeFrom (⟨(), 1⟩ : Andex 2)
    ∧ Andex.cmp (⟨(), 0⟩ : Andex 2) ⟨(), 1⟩ = Ordering.lt := by
  decide

/-- C6: for `SIZE ≥ 1` and every valid index, `pair` is an involution
(no subtraction underflows), and it exchanges `FIRST` and `LAST`. -/
theorem c6_pair_involution (SIZE : Nat) (hS : 1 ≤ SIZE) (a : Andex SIZE) (ha : a.inv) :
    a.pair.bind Andex.pair = some a
    ∧ (Andex.FIRST SIZE).pair = Andex.LAST SIZE
    ∧ (Andex.LAST SIZE).bind Andex.pair = some (Andex.FIRST SIZE) := by
  obtain ⟨u, v⟩ := a
  cases u
  have ha : v < SIZE := ha
  have hL : Andex.LAST SIZE = some ⟨(), SIZE - 1⟩ := by
    rw [Andex.LAST, checkedSub, if_pos (show 1 ≤ SIZE by omega)]
    simp
  refine ⟨?_, ?_, ?_⟩
  · rw [pair_eq _ ha, Option.some_bind, pair_eq _ (show SIZE - v - 1 < SIZE by omega)]
    simp only [Option.some.injEq, Andex.mk.injEq]
    exact ⟨trivial, by omega⟩
  · rw [pair_eq (Andex.FIRST SIZE) (show (Andex.FIRST SIZE).val < SIZE by
      simp [Andex.FIRST]; omega), hL]
    simp [Andex.FIRST]
  · rw [hL, Option.some_bind, pair_eq _ (show SIZE - 1 < SIZE by omega)]
    simp only [Option.some.injEq, Andex.mk.injEq, Andex.FIRST]
    exact ⟨trivial, by omega⟩

/-- C6 witness: `SIZE = 5`, index value 1. -/
theorem c6_witness :
    (Andex.pair (⟨(), 1⟩ : Andex 5)).bind Andex.pair = some ⟨(), 1⟩
    ∧ (Andex.FIRST 5).pair = Andex.LAST 5
    ∧ (Andex.LAST 5).bind Andex.pair = some (Andex.FIRST 5) :=
  c6_pair_involution 5 (by decide) ⟨(), 1⟩ (by decide)

/-- C7: collecting a sequence succeeds iff it yields exactly `SIZE`
items, in which case the array holds those items in their original
order; a shorter or longer sequence makes `from_iter` panic (`none`),
never truncate or pad. -/
theorem c7_collect_exact (Item : Type) (SIZE : Nat) (l : List Item) :
    (l.length = SIZE → fromIter SIZE l = some l)
    ∧ (l.length ≠ SIZE → fromIter SIZE l = none) := by
  rw [fromIter_eq]
  constructor
  · intro h
    rw [if_pos h]
  · intro h
    rw [if_neg h]

/-- C7 witness: `SIZE = 3` with sequences of length 3, 2 and 4. -/
theorem c7_witness :
    fromIter 3 [5, 6, 7] = some [5, 6, 7]
    ∧ fromIter 3 [5, 6] = none
    ∧ fromIter 3 [5, 6, 7, 8] = none :=
  ⟨(c7_collect_exact Nat 3 [5, 6, 7]).1 rfl,
   (c7_collect_exact Nat 3 [5, 6]).2 (by decide),
   (c7_collect_exact Nat 3 [5, 6, 7, 8]).2 (by decide)⟩

/-- C8: `FromStr` is integer-parse followed by the `try_from` range
check: a parse failure is wrapped as `ParseIntError`; a parsed value `v`
yields `Ok(index v)` when `v < SIZE` and
`OutOfBounds { value: v, size: SIZE }` when `v ≥ SIZE`. -/
theorem c8_fromStr_parse_then_range (SIZE : Nat) (s : String) :
    (∀ e, usizeFromStr s = .error e →
      Andex.fromStr SIZE s = .error (.parseIntError e))
    ∧ (∀ v, usizeFromStr s = .ok v → v < SIZE →
      Andex.fromStr SIZE s = .ok ⟨(), v⟩)
    ∧ (∀ v, usizeFromStr s = .ok v → SIZE ≤ v →
      Andex.fromStr SIZE s = .error (.outOfBounds v SIZE)) := by
  refine ⟨fun e he => ?_, fun v hv hlt => ?_, fun v hv hge => ?_⟩
  · rw [Andex.fromStr, he]
  · rw [Andex.fromStr, hv]
    simp [Andex.tryFrom, hlt]
  · rw [Andex.fromStr, hv]
    simp [Andex.tryFrom, Nat.not_lt.mpr hge]

/-- C8 witness: the spec's concrete parsing scenario at `SIZE = 3`. -/
theorem c8_witness :
    Andex.fromStr 3 "0" = .ok ⟨(), 0⟩
    ∧ Andex.fromStr 3 "abc" = .error (.parseIntError .invalidDigit)
    ∧ Andex.fromStr 3 "4" = .error (.outOfBounds 4 3) :=
  ⟨(c8_fromStr_parse_then_range 3 "0").2.1 0 rfl (by decide),
   (c8_fromStr_parse_then_range 3 "abc").1 .invalidDigit rfl,
   (c8_fromStr_parse_then_range 3 "4").2.2 4 rfl (by decide)⟩

/-- Stripping one leading `'+'` does not change the result of
`usize::from_str` as long as what follows is nonempty and does not
itself start with `'+'`. -/
theorem usizeFromStr_plus (c : Char) (t2 : List Char) (hc : c ≠ '+') :
    usizeFromStr ⟨'+' :: c :: t2⟩ = usizeFromStr ⟨c :: t2⟩ := by
  conv_lhs => rw [show usizeFromStr ⟨'+' :: c :: t2⟩ = parseDigits 0 (c :: t2) from rfl]
  unfold usizeFromStr
  split
  · simp_all
  · simp_all
  · rename_i h
    simp only [List.cons.injEq] at h
    obtain ⟨rfl, rfl⟩ := h
    rfl
  · rename_i rest h
    simp only [List.cons.injEq] at h
    exact absurd h.1 hc
  · rfl

/-- C9 counterexample: the claim says parse never succeeds on a string
beginning with a leading `'+'`, but `usize::from_str` (to which the
crate's `FromStr` delegates) accepts one leading `'+'`: parsing `"+3"`
at `SIZE = 12` succeeds with value 3. -/
theorem c9_counterexample :
    ("+3" : String).data = ['+', '3'] ∧ Andex.fromStr 12 "+3" = .ok ⟨(), 3⟩ :=
  ⟨rfl, rfl⟩

/-- C9 as amended: the textual format is a plain base-10 non-negative
integer literal, optionally preceded by a single leading `'+'` (which is
accepted and ignored); a leading `'-'` always fails with a parse
error. -/
theorem c9_amended_sign_handling (SIZE : Nat) (s : String) :
    (∀ t, s.data = '-' :: t →
      Andex.fromStr SIZE s = .error (.parseIntError .invalidDigit))
    ∧ (∀ t, s.data = '+' :: t → t ≠ [] → t.head? ≠ some '+' →
      Andex.fromStr SIZE s = Andex.fromStr SIZE (String.mk t)) := by
  obtain ⟨l⟩ := s
  constructor
  · intro t ht
    have ht : l = '-' :: t := ht
    subst ht
    cases t with
    | nil => rfl
    | cons c t2 => rfl
  · intro t ht h1 h2
    have ht : l = '+' :: t := ht
    subst ht
    cases t with
    | nil => exact absurd rfl h1
    | cons c t2 =>
      have hc : c ≠ '+' := by
        intro hcc
        exact h2 (by rw [hcc]; rfl)
      unfold Andex.fromStr
      rw [usizeFromStr_plus c t2 hc]

/-- C9 witness: `"-3"` fails with a parse error; `"+3"` parses exactly
like `"3"`. -/
theorem c9_witness :
    Andex.fromStr 12 "-3" = .error (.parseIntError .invalidDigit)
    ∧ Andex.fromStr 12 "+3" = Andex.fromStr 12 (String.mk ['3']) :=
  ⟨(c9_amended_sign_handling 12 "-3").1 ['3'] rfl,
   (c9_amended_sign_handling 12 "+3").2 ['3'] rfl (by decide) (by decide)⟩

/-- C10 as amended: for every `SIZE ≥ 1` the two iterator
implementations produce identical outcomes call by call (the `andex.rs`
one never panics and returns exactly what the `lib.rs` one returns);
at `SIZE = 0` they differ — see the counterexample. -/
theorem c10_iterators_agree (SIZE : Nat) (hS : 1 ≤ SIZE) (n : Nat) :
    andexIterOut SIZE n = some (libIterOut SIZE n) := by
  rw [andexIterOut_eq SIZE hS, libIterOut_eq]

/-- C10 counterexample: at `SIZE = 0` the first call differs — the
`lib.rs` iterator yields nothing (`libIterOut 0 0 = none`, a normal
"no more items"), while the `andex.rs` iterator panics
(`andexIterOut 0 0 = none` in the panic-tracking layer, not
`some none`). -/
theorem c10_counterexample :
    andexIterOut 0 0 ≠ some (libIterOut 0 0) := by
  decide

/-- C10 witness: at `SIZE = 2` the first calls agree. -/
theorem c10_witness :
    andexIterOut 2 0 = some (libIterOut 2 0) :=
  c10_iterators_agree 2 (by decide) 0
